import Mathlib

/-!
A shallow embedding of the scoring and grading engine of the repository
githubReports — the function `analyze_report` of `src/analyzer.py` — and
proofs of the specification's claims about it.

Conventions of the embedding:
* Python integers become `Int`; the input JSON mapping becomes an association
  list `List (String × Stats)` in dict-iteration order; a per-user record
  becomes an association list `Stats = List (String × Int)`.
* A configuration section is a structure of `Option Int` fields, `none`
  modelling an absent key, so that the source's `section.get(key, default)`
  becomes `field.getD default`.
* The floating-point expression `floor(log10(1 + total) * 5)` is embedded
  over the integers as `Nat.log 10 ((1 + total) ^ 5)`; the theorem for claim
  C3 proves this equal to the floor of the exact real-number formula.
* pandas' `df.sort_values(by="total_points", ascending=False)` computes an
  ascending argsort of the key column and then reverses the resulting indexer
  (`pandas.core.sorting.nargsort`). The default kind, quicksort (numpy
  introsort), is not stable in general: it guarantees no tie order beyond the
  small-array regime where introsort degenerates to insertion sort. The
  embedding sorts with a stable ascending sort followed by `reverse`. This
  agrees with the program on the descending order and on the kept-row
  multiset for every input, and on the exact output for small inputs (every
  concrete run below is in the insertion-sort regime); the development claims
  of the program only those order-insensitive properties and those concrete
  small runs, and no law about the tie order of large inputs.
-/

namespace GithubReports

/-- Prefix test on character lists: true when the first list is a prefix of
the second. Helper for the substring test below. -/
def beginsWith : List Char → List Char → Bool
  | [], _ => true
  | _ :: _, [] => false
  | a :: as, b :: bs => a == b && beginsWith as bs

/-- Substring test on character lists: true when `needle` occurs contiguously
inside the second list. Embeds Python's substring operator `a in b`. -/
def containsSeq (needle : List Char) : List Char → Bool
  | [] => beginsWith needle []
  | b :: bs => beginsWith needle (b :: bs) || containsSeq needle bs

/-- A per-user record: the string-keyed integer fields of one entry of the
input JSON mapping. -/
abbrev Stats := List (String × Int)

/-- Reads a numeric field of a record, embedding `int(stats.get(key, 0))`
from src/analyzer.py lines 49-57: a missing field defaults to 0. -/
def statGet (stats : Stats) (key : String) : Int :=
  (stats.lookup key).getD 0

/-- True when some key of the record contains the substring "error", embedding
line 46: `any("error" in key for key in stats.keys())`. -/
def hasErrorKey (stats : Stats) : Bool :=
  stats.any fun kv => containsSeq "error".toList kv.1.toList

/-- The `Scoring` section of the configuration. A field is `none` when the
key is absent from the configuration; `analyze_report` reads every value
through `config['Scoring'].get(key, default)` (src/analyzer.py lines 15-23). -/
structure Scoring where
  pointsPerCommit : Option Int
  bonusMbCommitsThreshold : Option Int
  bonusMbPoints : Option Int
  pointsPerImage : Option Int
  pointsPerIssueCreated : Option Int
  pointsPerIssueResolved : Option Int
  pointsPerPrOpened : Option Int
  pointsPerPrApproved : Option Int
  pointsPerComment : Option Int
deriving DecidableEq

/-- The `Grades` section of the configuration: the three tier thresholds,
read at src/analyzer.py lines 26-28. -/
structure Grades where
  mb : Option Int
  b : Option Int
  r : Option Int
deriving DecidableEq

/-- The configuration object passed to `analyze_report`. -/
structure Config where
  scoring : Scoring
  grades : Grades
deriving DecidableEq

/-- One output row of the engine, with the columns built at
src/analyzer.py lines 99-122 (the later renaming keeps every name). -/
structure Row where
  username : String
  commits : Int
  images : Int
  lines_added : Int
  lines_deleted : Int
  issues_created : Int
  issues_resolved : Int
  prs_opened : Int
  prs_approved : Int
  comments : Int
  pts_commits : Int
  pts_images : Int
  pts_lines : Int
  pts_issues_created : Int
  pts_issues_resolved : Int
  pts_prs_opened : Int
  pts_prs_approved : Int
  pts_comments : Int
  bonus_mb : Int
  total_points : Int
  grade : String
  justification : String
deriving DecidableEq

/-- Embeds the helper `points_from_lines` (src/analyzer.py lines 30-32):
`total = max(0, added + deleted)`; for positive `total` the contribution is
`floor(log10(1 + total) * 5)`, written over the integers as
`Nat.log 10 ((1 + total) ^ 5)` (proved below equal to the floor of the
real-number formula), and 0 otherwise. -/
def points_from_lines (added deleted : Int) : Int :=
  let total := max 0 (added + deleted)
  if 0 < total then (Nat.log 10 ((1 + total).toNat ^ 5) : Int) else 0

/-- Embeds the helper `grade_from_total` (src/analyzer.py lines 34-42):
top-down comparison against the three thresholds, highest tier first. -/
def grade_from_total (mbT bT rT total : Int) : String :=
  if total ≥ mbT then "MB"
  else if total ≥ bT then "B"
  else if total ≥ rT then "R"
  else "I"

/-- One iteration of the per-user loop of `analyze_report`
(src/analyzer.py lines 49-123): reads the raw counters with default 0,
computes the per-metric points, the bonus, the total, the grade and the
justification string, and builds the row dictionary of lines 99-122. The
scoring weights and grade thresholds are read with the source's
`.get(key, default)` defaults of lines 15-28. The Python truthiness tests
`if bonus_mb:` and friends become `≠ 0` tests on integers, and
`if not justification_lines:` becomes an emptiness test on the list. -/
def score_user (config : Config) (user : String) (stats : Stats) : Row :=
  let POINTS_PER_COMMIT := config.scoring.pointsPerCommit.getD 2
  let BONUS_MB_COMMITS_THRESHOLD := config.scoring.bonusMbCommitsThreshold.getD 19
  let BONUS_MB_POINTS := config.scoring.bonusMbPoints.getD 20
  let POINTS_PER_IMAGE := config.scoring.pointsPerImage.getD 4
  let POINTS_PER_ISSUE_CREATED := config.scoring.pointsPerIssueCreated.getD 1
  let POINTS_PER_ISSUE_RESOLVED := config.scoring.pointsPerIssueResolved.getD 3
  let POINTS_PER_PR_OPENED := config.scoring.pointsPerPrOpened.getD 2
  let POINTS_PER_PR_APPROVED := config.scoring.pointsPerPrApproved.getD 3
  let POINTS_PER_COMMENT := config.scoring.pointsPerComment.getD 1
  let GRADE_MB_THRESHOLD := config.grades.mb.getD 70
  let GRADE_B_THRESHOLD := config.grades.b.getD 40
  let GRADE_R_THRESHOLD := config.grades.r.getD 15
  let commits := statGet stats "commits"
  let images := statGet stats "images_in_commits"
  let lines_added := statGet stats "lines_added"
  let lines_deleted := statGet stats "lines_deleted"
  let issues_created := statGet stats "issues_created"
  let issues_resolved := statGet stats "issues_resolved_by"
  let prs_opened := statGet stats "prs_opened"
  let prs_approved := statGet stats "prs_with_approvals"
  let comments := statGet stats "comments"
  let pts_commits := commits * POINTS_PER_COMMIT
  let pts_images := images * POINTS_PER_IMAGE
  let pts_lines := points_from_lines lines_added lines_deleted
  let pts_issues_created := issues_created * POINTS_PER_ISSUE_CREATED
  let pts_issues_resolved := issues_resolved * POINTS_PER_ISSUE_RESOLVED
  let pts_prs_opened := prs_opened * POINTS_PER_PR_OPENED
  let pts_prs_approved := prs_approved * POINTS_PER_PR_APPROVED
  let pts_comments := comments * POINTS_PER_COMMENT
  let bonus_mb := if commits ≥ BONUS_MB_COMMITS_THRESHOLD then BONUS_MB_POINTS else 0
  let total := pts_commits + pts_images + pts_lines + pts_issues_created +
               pts_issues_resolved + pts_prs_opened + pts_prs_approved +
               pts_comments + bonus_mb
  let grade := grade_from_total GRADE_MB_THRESHOLD GRADE_B_THRESHOLD GRADE_R_THRESHOLD total
  let justification_lines : List String :=
    [s!"commits: {commits} → {pts_commits} pts ({POINTS_PER_COMMIT}pt/commit)."]
    ++ (if bonus_mb ≠ 0 then [s!"bonus for commits ≥ {BONUS_MB_COMMITS_THRESHOLD}: +{bonus_mb} pts."] else [])
    ++ (if images ≠ 0 then [s!"images: {images} → {pts_images} pts ({POINTS_PER_IMAGE}pt/image)."] else [])
    ++ (if lines_added + lines_deleted > 0 then [s!"lines changed: {lines_added} added + {lines_deleted} deleted → {pts_lines} pts (log scale)."] else [])
    ++ (if issues_created ≠ 0 then [s!"issues created: {issues_created} → {pts_issues_created} pts."] else [])
    ++ (if issues_resolved ≠ 0 then [s!"issues resolved: {issues_resolved} → {pts_issues_resolved} pts."] else [])
    ++ (if prs_opened ≠ 0 then [s!"prs opened: {prs_opened} → {pts_prs_opened} pts."] else [])
    ++ (if prs_approved ≠ 0 then [s!"prs approved: {prs_approved} → {pts_prs_approved} pts."] else [])
    ++ (if comments ≠ 0 then [s!"comments: {comments} → {pts_comments} pts."] else [])
  let justification_lines :=
    if justification_lines = [] then ["no measurable contributions → 0 pts."] else justification_lines
  let justification := String.intercalate " " justification_lines ++ s!" total={total} → grade={grade}."
  { username := user
    commits := commits
    images := images
    lines_added := lines_added
    lines_deleted := lines_deleted
    issues_created := issues_created
    issues_resolved := issues_resolved
    prs_opened := prs_opened
    prs_approved := prs_approved
    comments := comments
    pts_commits := pts_commits
    pts_images := pts_images
    pts_lines := pts_lines
    pts_issues_created := pts_issues_created
    pts_issues_resolved := pts_issues_resolved
    pts_prs_opened := pts_prs_opened
    pts_prs_approved := pts_prs_approved
    pts_comments := pts_comments
    bonus_mb := bonus_mb
    total_points := total
    grade := grade
    justification := justification }

/-- The drop predicate of src/analyzer.py line 132: a row is kept unless it
has zero total points and the lowest grade. -/
def keepRow (r : Row) : Bool :=
  !(r.total_points == 0 && r.grade == "I")

/-- The scored rows in input-iteration order: the loop of
src/analyzer.py lines 44-123, skipping entries with an error-marker key. -/
def rowsOf (json_data : List (String × Stats)) (config : Config) : List Row :=
  json_data.filterMap fun p =>
    if hasErrorKey p.2 then none else some (score_user config p.1 p.2)

/-- Stable insertion of a row into a list sorted by ascending total points. -/
def insertRow (a : Row) : List Row → List Row
  | [] => [a]
  | b :: l => if a.total_points ≤ b.total_points then a :: b :: l else b :: insertRow a l

/-- Ascending insertion sort of rows by total points: the model of the
ascending argsort computed inside pandas' `sort_values`. The model is a
stable sort, which matches numpy's quicksort argsort exactly on small arrays
(where introsort runs plain insertion sort — the regime of every concrete run
in this file) but fixes a tie order that the program's quicksort kind does
not guarantee on large arrays; theorems quantifying over all inputs therefore
only use order-insensitive consequences of this definition. -/
def sortRows : List Row → List Row
  | [] => []
  | a :: l => insertRow a (sortRows l)

/-- Embeds `analyze_report` (src/analyzer.py lines 5-172): score every entry
that carries no error marker (lines 44-123), return an empty frame when no
row was produced (lines 125-126), sort by total points descending — embedded,
per pandas' `nargsort`, as the ascending sort `sortRows` followed by
`reverse` (line 129; see the tie-order caveat on `sortRows`) — and drop the
zero-point lowest-grade rows (line 132). The column
renaming and reordering of lines 134-172 change no row values. -/
def analyze_report (json_data : List (String × Stats)) (config : Config) : List Row :=
  let rows := rowsOf json_data config
  if rows.isEmpty then []
  else ((sortRows rows).reverse).filter keepRow

/-- A configuration with every key absent: the engine then uses the `.get`
defaults of src/analyzer.py lines 15-28 (weights 2,19,20,4,1,3,2,3,1 and
thresholds 70,40,15). -/
def emptyConfig : Config :=
  ⟨⟨none, none, none, none, none, none, none, none, none⟩, ⟨none, none, none⟩⟩

/-- The documented default configuration made explicit: every key present and
set to the default the source would use for it. -/
def explicitDefaultConfig : Config :=
  ⟨⟨some 2, some 19, some 20, some 4, some 1, some 3, some 2, some 3, some 1⟩,
   ⟨some 70, some 40, some 15⟩⟩

/-- A configuration whose lowest (R) grade threshold is 0 and whose other
keys are absent: a total of 0 then grades as "R", not "I". -/
def rZeroConfig : Config :=
  ⟨⟨none, none, none, none, none, none, none, none, none⟩, ⟨none, none, some 0⟩⟩

/-- Rank of a grade tier, lowest "I" = 0 to highest "MB" = 3; used to state
monotonicity of grading. -/
def tierRank (g : String) : Nat :=
  if g = "MB" then 3 else if g = "B" then 2 else if g = "R" then 1 else 0

/-- Re-rendering of a row's justification from its stored fields and the
configuration, following the specification's clause order: commits (always
present — never substituted), then bonus, images, lines changed, issues
created, issues resolved, PRs opened, PRs approved, comments, each emitted
exactly when its metric is non-zero (lines: when added + deleted is positive),
terminated by the total and the grade. -/
def renderJustification (config : Config) (r : Row) : String :=
  let clauses : List String :=
    [s!"commits: {r.commits} → {r.pts_commits} pts ({config.scoring.pointsPerCommit.getD 2}pt/commit)."]
    ++ (if r.bonus_mb ≠ 0 then [s!"bonus for commits ≥ {config.scoring.bonusMbCommitsThreshold.getD 19}: +{r.bonus_mb} pts."] else [])
    ++ (if r.images ≠ 0 then [s!"images: {r.images} → {r.pts_images} pts ({config.scoring.pointsPerImage.getD 4}pt/image)."] else [])
    ++ (if r.lines_added + r.lines_deleted > 0 then [s!"lines changed: {r.lines_added} added + {r.lines_deleted} deleted → {r.pts_lines} pts (log scale)."] else [])
    ++ (if r.issues_created ≠ 0 then [s!"issues created: {r.issues_created} → {r.pts_issues_created} pts."] else [])
    ++ (if r.issues_resolved ≠ 0 then [s!"issues resolved: {r.issues_resolved} → {r.pts_issues_resolved} pts."] else [])
    ++ (if r.prs_opened ≠ 0 then [s!"prs opened: {r.prs_opened} → {r.pts_prs_opened} pts."] else [])
    ++ (if r.prs_approved ≠ 0 then [s!"prs approved: {r.prs_approved} → {r.pts_prs_approved} pts."] else [])
    ++ (if r.comments ≠ 0 then [s!"comments: {r.comments} → {r.pts_comments} pts."] else [])
  String.intercalate " " clauses ++ s!" total={r.total_points} → grade={r.grade}."

/-! ### Basic lemmas about the embedding -/

theorem score_user_username (c : Config) (u : String) (s : Stats) :
    (score_user c u s).username = u := rfl

theorem score_user_total (c : Config) (u : String) (s : Stats) :
    (score_user c u s).total_points =
      (score_user c u s).pts_commits + (score_user c u s).pts_images +
      (score_user c u s).pts_lines + (score_user c u s).pts_issues_created +
      (score_user c u s).pts_issues_resolved + (score_user c u s).pts_prs_opened +
      (score_user c u s).pts_prs_approved + (score_user c u s).pts_comments +
      (score_user c u s).bonus_mb := rfl

theorem score_user_commits (c : Config) (u : String) (s : Stats) :
    (score_user c u s).commits = statGet s "commits" := rfl

theorem score_user_images (c : Config) (u : String) (s : Stats) :
    (score_user c u s).images = statGet s "images_in_commits" := rfl

theorem score_user_lines_added (c : Config) (u : String) (s : Stats) :
    (score_user c u s).lines_added = statGet s "lines_added" := rfl

theorem score_user_lines_deleted (c : Config) (u : String) (s : Stats) :
    (score_user c u s).lines_deleted = statGet s "lines_deleted" := rfl

theorem score_user_issues_created (c : Config) (u : String) (s : Stats) :
    (score_user c u s).issues_created = statGet s "issues_created" := rfl

theorem score_user_issues_resolved (c : Config) (u : String) (s : Stats) :
    (score_user c u s).issues_resolved = statGet s "issues_resolved_by" := rfl

theorem score_user_prs_opened (c : Config) (u : String) (s : Stats) :
    (score_user c u s).prs_opened = statGet s "prs_opened" := rfl

theorem score_user_prs_approved (c : Config) (u : String) (s : Stats) :
    (score_user c u s).prs_approved = statGet s "prs_with_approvals" := rfl

theorem score_user_comments (c : Config) (u : String) (s : Stats) :
    (score_user c u s).comments = statGet s "comments" := rfl

theorem score_user_pts_commits (c : Config) (u : String) (s : Stats) :
    (score_user c u s).pts_commits =
      statGet s "commits" * c.scoring.pointsPerCommit.getD 2 := rfl

theorem score_user_pts_images (c : Config) (u : String) (s : Stats) :
    (score_user c u s).pts_images =
      statGet s "images_in_commits" * c.scoring.pointsPerImage.getD 4 := rfl

theorem score_user_pts_lines (c : Config) (u : String) (s : Stats) :
    (score_user c u s).pts_lines =
      points_from_lines (statGet s "lines_added") (statGet s "lines_deleted") := rfl

theorem score_user_pts_issues_created (c : Config) (u : String) (s : Stats) :
    (score_user c u s).pts_issues_created =
      statGet s "issues_created" * c.scoring.pointsPerIssueCreated.getD 1 := rfl

theorem score_user_pts_issues_resolved (c : Config) (u : String) (s : Stats) :
    (score_user c u s).pts_issues_resolved =
      statGet s "issues_resolved_by" * c.scoring.pointsPerIssueResolved.getD 3 := rfl

theorem score_user_pts_prs_opened (c : Config) (u : String) (s : Stats) :
    (score_user c u s).pts_prs_opened =
      statGet s "prs_opened" * c.scoring.pointsPerPrOpened.getD 2 := rfl

theorem score_user_pts_prs_approved (c : Config) (u : String) (s : Stats) :
    (score_user c u s).pts_prs_approved =
      statGet s "prs_with_approvals" * c.scoring.pointsPerPrApproved.getD 3 := rfl

theorem score_user_pts_comments (c : Config) (u : String) (s : Stats) :
    (score_user c u s).pts_comments =
      statGet s "comments" * c.scoring.pointsPerComment.getD 1 := rfl

theorem score_user_bonus (c : Config) (u : String) (s : Stats) :
    (score_user c u s).bonus_mb =
      if c.scoring.bonusMbCommitsThreshold.getD 19 ≤ statGet s "commits"
      then c.scoring.bonusMbPoints.getD 20 else 0 := rfl

theorem score_user_grade (c : Config) (u : String) (s : Stats) :
    (score_user c u s).grade =
      grade_from_total (c.grades.mb.getD 70) (c.grades.b.getD 40) (c.grades.r.getD 15)
        (score_user c u s).total_points := rfl

theorem points_from_lines_nonneg (added deleted : Int) :
    0 ≤ points_from_lines added deleted := by
  simp only [points_from_lines]
  split
  · exact Int.natCast_nonneg _
  · exact le_refl 0

theorem tierRank_MB : tierRank "MB" = 3 := by decide

theorem tierRank_B : tierRank "B" = 2 := by decide

theorem tierRank_R : tierRank "R" = 1 := by decide

theorem tierRank_I : tierRank "I" = 0 := by decide

theorem lookup_mem {l : Stats} {k : String} {v : Int} (h : l.lookup k = some v) :
    ∃ k', (k', v) ∈ l := by
  induction l with
  | nil => cases h
  | cons kv rest ih =>
    rw [List.lookup] at h
    by_cases hk : k == kv.1
    · refine ⟨kv.1, ?_⟩
      simp only [hk] at h
      cases h
      exact List.mem_cons_self _ _
    · simp only [Bool.not_eq_true] at hk
      simp only [hk] at h
      obtain ⟨k', hk'⟩ := ih h
      exact ⟨k', List.mem_cons_of_mem _ hk'⟩

theorem statGet_nonneg {stats : Stats} (h : ∀ kv ∈ stats, 0 ≤ kv.2) (key : String) :
    0 ≤ statGet stats key := by
  unfold statGet
  rcases hl : stats.lookup key with _ | v
  · simp
  · obtain ⟨k', hk'⟩ := lookup_mem hl
    simpa using h (k', v) hk'

theorem insertRow_perm (a : Row) (l : List Row) :
    List.Perm (insertRow a l) (a :: l) := by
  induction l with
  | nil => simp [insertRow]
  | cons b t ih =>
    rw [insertRow]
    split
    · exact List.Perm.refl _
    · exact (ih.cons b).trans (List.Perm.swap a b t)

theorem sortRows_perm (l : List Row) : List.Perm (sortRows l) l := by
  induction l with
  | nil => exact List.Perm.refl _
  | cons a t ih => exact (insertRow_perm a (sortRows t)).trans (ih.cons a)

theorem pairwise_insertRow {a : Row} {l : List Row}
    (h : List.Pairwise (fun x y => x.total_points ≤ y.total_points) l) :
    List.Pairwise (fun x y => x.total_points ≤ y.total_points) (insertRow a l) := by
  induction l with
  | nil => simp [insertRow]
  | cons b t ih =>
    obtain ⟨hb, ht⟩ := List.pairwise_cons.mp h
    rw [insertRow]
    split
    · rename_i hab
      refine List.pairwise_cons.mpr ⟨?_, h⟩
      intro x hx
      rcases List.mem_cons.mp hx with rfl | hx
      · exact hab
      · exact hab.trans (hb x hx)
    · rename_i hab
      refine List.pairwise_cons.mpr ⟨?_, ih ht⟩
      intro x hx
      rcases List.mem_cons.mp ((insertRow_perm a t).mem_iff.mp hx) with rfl | hx
      · exact le_of_lt (lt_of_not_le hab)
      · exact hb x hx

theorem sortRows_pairwise (l : List Row) :
    List.Pairwise (fun x y => x.total_points ≤ y.total_points) (sortRows l) := by
  induction l with
  | nil => simp [sortRows]
  | cons a t ih => exact pairwise_insertRow ih

theorem rowsOf_cons (p : String × Stats) (rest : List (String × Stats)) (c : Config) :
    rowsOf (p :: rest) c =
      if hasErrorKey p.2 then rowsOf rest c
      else score_user c p.1 p.2 :: rowsOf rest c := by
  rcases he : hasErrorKey p.2 with _ | _ <;>
    simp [rowsOf, List.filterMap_cons, he]

theorem analyze_perm (j : List (String × Stats)) (c : Config) :
    List.Perm (analyze_report j c) ((rowsOf j c).filter keepRow) := by
  unfold analyze_report
  rcases hr : rowsOf j c with _ | ⟨a, t⟩
  · simp
  · simp only [List.isEmpty_cons, Bool.false_eq_true, if_false]
    exact List.Perm.filter keepRow
      ((List.reverse_perm (sortRows (a :: t))).trans (sortRows_perm (a :: t)))

theorem mem_rowsOf {r : Row} {j : List (String × Stats)} {c : Config} :
    r ∈ rowsOf j c ↔
      ∃ p ∈ j, hasErrorKey p.2 = false ∧ r = score_user c p.1 p.2 := by
  simp only [rowsOf, List.mem_filterMap]
  constructor
  · rintro ⟨p, hp, hf⟩
    rcases he : hasErrorKey p.2 with _ | _
    · rw [if_neg (by simp [he])] at hf
      cases hf
      exact ⟨p, hp, he, rfl⟩
    · rw [if_pos (by simp [he])] at hf
      cases hf
  · rintro ⟨p, hp, he, rfl⟩
    exact ⟨p, hp, by rw [if_neg (by simp [he])]⟩

theorem mem_analyze {r : Row} {j : List (String × Stats)} {c : Config} :
    r ∈ analyze_report j c ↔ r ∈ rowsOf j c ∧ keepRow r = true := by
  rw [(analyze_perm j c).mem_iff, List.mem_filter]

theorem username_mem_of_mem_rowsOf {r : Row} {j : List (String × Stats)} {c : Config}
    (h : r ∈ rowsOf j c) : r.username ∈ j.map Prod.fst := by
  obtain ⟨p, hp, _, rfl⟩ := mem_rowsOf.mp h
  exact List.mem_map.mpr ⟨p, hp, rfl⟩

theorem rowsOf_filter_username {j : List (String × Stats)} {c : Config}
    {u : String} {stats : Stats}
    (hnd : (j.map Prod.fst).Nodup) (hmem : (u, stats) ∈ j)
    (herr : hasErrorKey stats = false) :
    (rowsOf j c).filter (fun r => r.username == u) = [score_user c u stats] := by
  induction j with
  | nil => cases hmem
  | cons p rest ih =>
    rw [List.map_cons, List.nodup_cons] at hnd
    rcases List.mem_cons.mp hmem with rfl | hmem'
    · have hnil : (rowsOf rest c).filter (fun r => r.username == u) = [] := by
        rw [List.filter_eq_nil_iff]
        intro r hr
        have hm := username_mem_of_mem_rowsOf hr
        simp only [beq_iff_eq]
        intro hru
        exact hnd.1 (hru ▸ hm)
      rw [rowsOf_cons, if_neg (by simp [herr]),
        List.filter_cons_of_pos (by simp [score_user_username]), hnil]
    · have hpu : p.1 ≠ u := by
        intro h
        exact hnd.1 (h ▸ List.mem_map.mpr ⟨(u, stats), hmem', rfl⟩)
      rw [rowsOf_cons]
      rcases he : hasErrorKey p.2 with _ | _
      · rw [if_neg (by simp [he]),
          List.filter_cons_of_neg (by simp [score_user_username, hpu])]
        exact ih hnd.2 hmem'
      · rw [if_pos (by simp [he])]
        exact ih hnd.2 hmem'

theorem keepRow_iff (r : Row) :
    keepRow r = true ↔ ¬(r.total_points = 0 ∧ r.grade = "I") := by
  simp only [keepRow, Bool.not_eq_true', Bool.and_eq_false_iff, beq_eq_false_iff_ne,
    ne_eq, not_and]
  tauto

/-! ### Claims -/

/-- C1: every record produced by the scoring engine has `total_points` equal to
the exact integer sum of the eight per-metric point fields plus the bonus field,
and, when every configured weight and every input counter is non-negative, this
total is a non-negative integer. -/
theorem C1_total_points_sum (j : List (String × Stats)) (c : Config) (r : Row)
    (hr : r ∈ analyze_report j c) :
    r.total_points =
      r.pts_commits + r.pts_images + r.pts_lines + r.pts_issues_created +
      r.pts_issues_resolved + r.pts_prs_opened + r.pts_prs_approved +
      r.pts_comments + r.bonus_mb ∧
    ((0 ≤ c.scoring.pointsPerCommit.getD 2 ∧ 0 ≤ c.scoring.bonusMbPoints.getD 20 ∧
      0 ≤ c.scoring.pointsPerImage.getD 4 ∧ 0 ≤ c.scoring.pointsPerIssueCreated.getD 1 ∧
      0 ≤ c.scoring.pointsPerIssueResolved.getD 3 ∧ 0 ≤ c.scoring.pointsPerPrOpened.getD 2 ∧
      0 ≤ c.scoring.pointsPerPrApproved.getD 3 ∧ 0 ≤ c.scoring.pointsPerComment.getD 1) →
      (∀ p ∈ j, ∀ kv ∈ p.2, 0 ≤ kv.2) → 0 ≤ r.total_points) := by
  obtain ⟨hrow, _⟩ := mem_analyze.mp hr
  obtain ⟨p, hp, herr, rfl⟩ := mem_rowsOf.mp hrow
  refine ⟨score_user_total c p.1 p.2, ?_⟩
  rintro ⟨h1, h2, h3, h4, h5, h6, h7, h8⟩ hstats
  have hg : ∀ key, 0 ≤ statGet p.2 key := statGet_nonneg (hstats p hp)
  rw [score_user_total, score_user_pts_commits, score_user_pts_images,
    score_user_pts_lines, score_user_pts_issues_created, score_user_pts_issues_resolved,
    score_user_pts_prs_opened, score_user_pts_prs_approved, score_user_pts_comments,
    score_user_bonus]
  have hb : (0:Int) ≤
      (if c.scoring.bonusMbCommitsThreshold.getD 19 ≤ statGet p.2 "commits"
       then c.scoring.bonusMbPoints.getD 20 else 0) := by
    split
    · exact h2
    · exact le_refl 0
  have hl := points_from_lines_nonneg (statGet p.2 "lines_added") (statGet p.2 "lines_deleted")
  have m1 := mul_nonneg (hg "commits") h1
  have m2 := mul_nonneg (hg "images_in_commits") h3
  have m3 := mul_nonneg (hg "issues_created") h4
  have m4 := mul_nonneg (hg "issues_resolved_by") h5
  have m5 := mul_nonneg (hg "prs_opened") h6
  have m6 := mul_nonneg (hg "prs_with_approvals") h7
  have m7 := mul_nonneg (hg "comments") h8
  linarith

/-- Witness for C1 at a concrete run: one user with 3 commits under the
all-defaults configuration. -/
theorem C1_total_points_sum_witness :
    (score_user emptyConfig "u" [("commits", 3)]).total_points =
      (score_user emptyConfig "u" [("commits", 3)]).pts_commits +
      (score_user emptyConfig "u" [("commits", 3)]).pts_images +
      (score_user emptyConfig "u" [("commits", 3)]).pts_lines +
      (score_user emptyConfig "u" [("commits", 3)]).pts_issues_created +
      (score_user emptyConfig "u" [("commits", 3)]).pts_issues_resolved +
      (score_user emptyConfig "u" [("commits", 3)]).pts_prs_opened +
      (score_user emptyConfig "u" [("commits", 3)]).pts_prs_approved +
      (score_user emptyConfig "u" [("commits", 3)]).pts_comments +
      (score_user emptyConfig "u" [("commits", 3)]).bonus_mb ∧
    0 ≤ (score_user emptyConfig "u" [("commits", 3)]).total_points := by
  have h := C1_total_points_sum [("u", [("commits", 3)])] emptyConfig
    (score_user emptyConfig "u" [("commits", 3)]) (by decide)
  exact ⟨h.1, h.2 (by decide) (by decide)⟩

/-- C2: grading is the pure top-down threshold comparison: any total at or
above the MB threshold grades "MB"; a total exactly at the B (resp. R)
threshold grades "B" (resp. "R") under strictly ascending thresholds; with the
default thresholds 70/40/15 a total of 70 grades "MB" and 69 grades "B"; and
with ascending thresholds the assigned tier is monotone non-decreasing in the
total. -/
theorem C2_grade_from_total_spec :
    (∀ mbT bT rT total : Int, mbT ≤ total → grade_from_total mbT bT rT total = "MB") ∧
    (∀ mbT bT rT : Int, bT < mbT → grade_from_total mbT bT rT bT = "B") ∧
    (∀ mbT bT rT : Int, rT < bT → bT ≤ mbT → grade_from_total mbT bT rT rT = "R") ∧
    grade_from_total 70 40 15 70 = "MB" ∧ grade_from_total 70 40 15 69 = "B" ∧
    (∀ mbT bT rT t1 t2 : Int, rT ≤ bT → bT ≤ mbT → t1 ≤ t2 →
      tierRank (grade_from_total mbT bT rT t1) ≤ tierRank (grade_from_total mbT bT rT t2)) := by
  refine ⟨?_, ?_, ?_, by decide, by decide, ?_⟩
  · intro mbT bT rT total h
    rw [grade_from_total, if_pos h]
  · intro mbT bT rT h
    rw [grade_from_total, if_neg (by omega), if_pos (le_refl bT)]
  · intro mbT bT rT h1 h2
    rw [grade_from_total, if_neg (by omega), if_neg (by omega), if_pos (le_refl rT)]
  · intro mbT bT rT t1 t2 hrb hbm h12
    unfold grade_from_total
    split_ifs <;>
      simp only [tierRank_MB, tierRank_B, tierRank_R, tierRank_I] <;>
      omega

/-- Witness for C2 at concrete thresholds and totals (defaults, totals 69
and 70). -/
theorem C2_grade_from_total_spec_witness :
    grade_from_total 70 40 15 70 = "MB" ∧
    tierRank (grade_from_total 70 40 15 69) ≤ tierRank (grade_from_total 70 40 15 70) := by
  refine ⟨C2_grade_from_total_spec.1 70 40 15 70 (by decide), ?_⟩
  exact C2_grade_from_total_spec.2.2.2.2.2 70 40 15 69 70 (by decide) (by decide) (by decide)

/-- C3: the lines-changed metric contributes the floor of the exact
real-number formula log10(1 + total_lines) * 5 when total_lines is positive,
contributes 0 when total_lines is 0, and on lines_added = 99,
lines_deleted = 1 (total 100) contributes exactly 10 points. -/
theorem C3_points_from_lines_spec (added deleted : Int) :
    (max 0 (added + deleted) = 0 → points_from_lines added deleted = 0) ∧
    (0 < max 0 (added + deleted) →
      points_from_lines added deleted =
        ⌊Real.logb 10 (1 + ((max 0 (added + deleted) : Int) : ℝ)) * 5⌋) ∧
    points_from_lines 99 1 = 10 := by
  refine ⟨?_, ?_, ?_⟩
  · intro h
    simp only [points_from_lines]
    rw [if_neg (by omega)]
  · intro h
    have h1 : (0:Int) ≤ 1 + max 0 (added + deleted) := by
      have := le_max_left (0:Int) (added + deleted)
      omega
    simp only [points_from_lines]
    rw [if_pos h]
    have hn : (((1 + max 0 (added + deleted)).toNat : ℕ) : ℝ)
        = 1 + ((max 0 (added + deleted) : Int) : ℝ) := by
      rw [← Int.cast_natCast, Int.toNat_of_nonneg h1]
      push_cast
      ring
    rw [← hn]
    have hpow : Real.logb 10 (((1 + max 0 (added + deleted)).toNat : ℕ) : ℝ) * 5
        = Real.logb 10 ((((1 + max 0 (added + deleted)).toNat ^ 5 : ℕ) : ℕ) : ℝ) := by
      push_cast
      rw [Real.logb_pow]
      push_cast
      ring
    rw [hpow, show (10:ℝ) = ((10:ℕ):ℝ) by norm_num,
      Real.floor_logb_natCast (Nat.cast_nonneg _), Int.log_natCast]
  · have hlog : Nat.log 10 (101 ^ 5) = 10 :=
      Nat.log_eq_of_pow_le_of_lt_pow (by norm_num) (by norm_num)
    simp only [points_from_lines]
    norm_num
    rw [show Int.toNat 101 = 101 from rfl, hlog]
    norm_num

/-- Witness for C3 at lines_added = 99, lines_deleted = 1: the positive branch
of the formula evaluated concretely. -/
theorem C3_points_from_lines_spec_witness :
    points_from_lines 99 1 =
      ⌊Real.logb 10 (1 + ((max 0 ((99:Int) + 1) : Int) : ℝ)) * 5⌋ ∧
    points_from_lines 99 1 = 10 := by
  exact ⟨(C3_points_from_lines_spec 99 1).2.1 (by norm_num),
    (C3_points_from_lines_spec 99 1).2.2⟩

/-- C4: among input entries without an error marker, the scored record is in
the output exactly when it is not the case that its total is 0 and its grade
is the lowest tier "I"; consequently a record with nonzero total points (even
with grade "I"), or with a grade other than "I" (as happens for a total of 0
when the R threshold is configured non-positive), is kept. -/
theorem C4_drop_rule (j : List (String × Stats)) (c : Config) (u : String) (stats : Stats)
    (hmem : (u, stats) ∈ j) (herr : hasErrorKey stats = false) :
    (score_user c u stats ∈ analyze_report j c ↔
      ¬((score_user c u stats).total_points = 0 ∧ (score_user c u stats).grade = "I")) ∧
    ((score_user c u stats).total_points ≠ 0 → score_user c u stats ∈ analyze_report j c) ∧
    ((score_user c u stats).grade ≠ "I" → score_user c u stats ∈ analyze_report j c) := by
  have hrow : score_user c u stats ∈ rowsOf j c :=
    mem_rowsOf.mpr ⟨(u, stats), hmem, herr, rfl⟩
  have hiff : score_user c u stats ∈ analyze_report j c ↔
      ¬((score_user c u stats).total_points = 0 ∧ (score_user c u stats).grade = "I") := by
    rw [mem_analyze, keepRow_iff]
    exact ⟨fun h => h.2, fun h => ⟨hrow, h⟩⟩
  exact ⟨hiff, fun h => hiff.mpr (fun hc => h hc.1), fun h => hiff.mpr (fun hc => h hc.2)⟩

/-- Witness for C4: a user with 1 commit (total 2, grade "I") is kept in the
output — only the total 0 and grade "I" combination is dropped. -/
theorem C4_drop_rule_witness :
    score_user emptyConfig "u" [("commits", 1)] ∈
      analyze_report [("u", [("commits", 1)])] emptyConfig ∧
    (score_user emptyConfig "u" [("commits", 1)]).total_points = 2 ∧
    (score_user emptyConfig "u" [("commits", 1)]).grade = "I" := by
  refine ⟨?_, by decide, by decide⟩
  exact (C4_drop_rule [("u", [("commits", 1)])] emptyConfig "u" [("commits", 1)]
    (by decide) (by decide)).2.1 (by decide)

/-- Counterexample to C5: an input entry with no error-marker key is
nevertheless excluded from the output — the all-zero record is dropped by the
zero-points/lowest-grade rule — so exclusion from the output is not equivalent
to carrying an error marker. -/
theorem C5_counterexample :
    hasErrorKey [("commits", 0)] = false ∧
    analyze_report [("u", [("commits", 0)])] emptyConfig = [] :=
  ⟨by decide, by decide⟩

/-- C5 (amended): an entry whose record has a key containing the substring
"error" never appears in the output — every output record comes from an entry
without an error marker, with no exception raised; an entry without an error
marker is scored, though its row may additionally be dropped by the
zero-points/lowest-grade rule; when every entry has an error marker, or the
input mapping is empty, the output is empty. -/
theorem C5_error_filter (j : List (String × Stats)) (c : Config) :
    (∀ r ∈ analyze_report j c,
      ∃ p ∈ j, hasErrorKey p.2 = false ∧ r = score_user c p.1 p.2) ∧
    ((∀ p ∈ j, hasErrorKey p.2 = true) → analyze_report j c = []) ∧
    analyze_report [] c = [] := by
  refine ⟨?_, ?_, rfl⟩
  · intro r hr
    exact mem_rowsOf.mp (mem_analyze.mp hr).1
  · intro hall
    have hnil : rowsOf j c = [] := by
      rw [rowsOf, List.filterMap_eq_nil_iff]
      intro p hp
      rw [if_pos (by simp [hall p hp])]
    rw [analyze_report, hnil]
    rfl

/-- Witness for C5: an input whose entries all carry error markers (one exact
"error" key, one key merely containing the substring) yields an empty
output. -/
theorem C5_error_filter_witness :
    analyze_report [("a", [("error", 0)]), ("b", [("commits_error", 1)])] emptyConfig = [] :=
  (C5_error_filter [("a", [("error", 0)]), ("b", [("commits_error", 1)])]
    emptyConfig).2.1 (by decide)

/-- C7: the commit bonus is all-or-nothing and flat: every output record's
bonus equals the configured bonus amount when its commit count reaches the
configured threshold, and 0 otherwise; with the default threshold 19 and bonus
20, a lone user with 18 commits gets no bonus (total 36), while one with 19
commits gets the full bonus, total 58 and grade "B". -/
theorem C7_bonus_rule :
    (∀ (j : List (String × Stats)) (c : Config) (r : Row), r ∈ analyze_report j c →
      r.bonus_mb =
        if c.scoring.bonusMbCommitsThreshold.getD 19 ≤ r.commits
        then c.scoring.bonusMbPoints.getD 20 else 0) ∧
    (analyze_report [("u", [("commits", 18)])] emptyConfig).map
      (fun r => (r.bonus_mb, r.total_points)) = [(0, 36)] ∧
    (analyze_report [("u", [("commits", 19)])] emptyConfig).map
      (fun r => (r.bonus_mb, r.total_points, r.grade)) = [(20, 58, "B")] := by
  refine ⟨?_, by decide, by decide⟩
  intro j c r hr
  obtain ⟨p, hp, herr, rfl⟩ := mem_rowsOf.mp (mem_analyze.mp hr).1
  rw [score_user_bonus, score_user_commits]

/-- Witness for C7: the bonus equation instantiated at the record of a lone
user with 19 commits under the default configuration. -/
theorem C7_bonus_rule_witness :
    (score_user emptyConfig "u" [("commits", 19)]).bonus_mb =
      if emptyConfig.scoring.bonusMbCommitsThreshold.getD 19 ≤
          (score_user emptyConfig "u" [("commits", 19)]).commits
      then emptyConfig.scoring.bonusMbPoints.getD 20 else 0 :=
  C7_bonus_rule.1 [("u", [("commits", 19)])] emptyConfig
    (score_user emptyConfig "u" [("commits", 19)]) (by decide)

/-- Counterexample to C6: two users with equal totals appear in the output in
the reverse of their input order ("b" before "a"), not in input order — the
sort is not input-order stable. -/
theorem C6_counterexample :
    (analyze_report [("a", [("commits", 1)]), ("b", [("commits", 1)])] emptyConfig).map
      Row.username = ["b", "a"] ∧
    (analyze_report [("a", [("commits", 1)]), ("b", [("commits", 1)])] emptyConfig).map
      Row.total_points = [2, 2] :=
  ⟨by decide, by decide⟩

/-- C6 (amended): the output list is sorted by total_points in descending
order and consists, as a multiset, of exactly the scored rows that survive
the drop rule; but the sort is not input-order-stable: ties need not retain
the input-iteration order (with two tied records the output is their reverse,
as the counterexample shows), and the quicksort kind the source requests
guarantees no particular tie order in general. -/
theorem C6_ordering (j : List (String × Stats)) (c : Config) :
    List.Pairwise (fun x y => y.total_points ≤ x.total_points) (analyze_report j c) ∧
    List.Perm (analyze_report j c) ((rowsOf j c).filter keepRow) := by
  refine ⟨?_, analyze_perm j c⟩
  rw [analyze_report]
  rcases hr : rowsOf j c with _ | ⟨a, tl⟩
  · simp
  · simp only [List.isEmpty_cons, Bool.false_eq_true, if_false]
    refine List.Pairwise.filter keepRow ?_
    rw [List.pairwise_reverse]
    exact sortRows_pairwise _

/-- Counterexample to C8: with the scoring key PointsPerCommit missing from
the configuration, the engine silently substitutes the documented default
weight of 2 points per commit — a lone user with 5 commits is scored 10 commit
points instead of the missing weight being treated as an error. -/
theorem C8_counterexample :
    emptyConfig.scoring.pointsPerCommit = none ∧
    (analyze_report [("u", [("commits", 5)])] emptyConfig).map
      (fun r => r.pts_commits) = [10] :=
  ⟨rfl, by decide⟩

/-- C8 (amended): the engine applies defaults at both levels: a missing
per-user metric field is read as 0 (not an error), and a missing scoring
weight or grade threshold is likewise silently replaced inside the engine by
its documented default, so a configuration with no keys at all makes the
engine behave exactly like the explicit default configuration. -/
theorem C8_defaults (c : Config) (u : String) (stats : Stats) :
    (stats.lookup "commits" = none → (score_user c u stats).commits = 0) ∧
    (stats.lookup "images_in_commits" = none → (score_user c u stats).images = 0) ∧
    (stats.lookup "lines_added" = none → (score_user c u stats).lines_added = 0) ∧
    (stats.lookup "lines_deleted" = none → (score_user c u stats).lines_deleted = 0) ∧
    (stats.lookup "issues_created" = none → (score_user c u stats).issues_created = 0) ∧
    (stats.lookup "issues_resolved_by" = none → (score_user c u stats).issues_resolved = 0) ∧
    (stats.lookup "prs_opened" = none → (score_user c u stats).prs_opened = 0) ∧
    (stats.lookup "prs_with_approvals" = none → (score_user c u stats).prs_approved = 0) ∧
    (stats.lookup "comments" = none → (score_user c u stats).comments = 0) ∧
    (∀ j : List (String × Stats),
      analyze_report j emptyConfig = analyze_report j explicitDefaultConfig) := by
  refine ⟨?_, ?_, ?_, ?_, ?_, ?_, ?_, ?_, ?_, fun j => rfl⟩
  · intro h; rw [score_user_commits]; simp [statGet, h]
  · intro h; rw [score_user_images]; simp [statGet, h]
  · intro h; rw [score_user_lines_added]; simp [statGet, h]
  · intro h; rw [score_user_lines_deleted]; simp [statGet, h]
  · intro h; rw [score_user_issues_created]; simp [statGet, h]
  · intro h; rw [score_user_issues_resolved]; simp [statGet, h]
  · intro h; rw [score_user_prs_opened]; simp [statGet, h]
  · intro h; rw [score_user_prs_approved]; simp [statGet, h]
  · intro h; rw [score_user_comments]; simp [statGet, h]

/-- Witness for C8: a record with no fields at all reads every counter as 0,
and the all-keys-missing configuration scores a concrete input exactly like
the explicit default configuration. -/
theorem C8_defaults_witness :
    (score_user emptyConfig "u" ([] : Stats)).commits = 0 ∧
    analyze_report [("u", [("commits", 5)])] emptyConfig =
      analyze_report [("u", [("commits", 5)])] explicitDefaultConfig :=
  ⟨(C8_defaults emptyConfig "u" ([] : Stats)).1 rfl,
   (C8_defaults emptyConfig "u" ([] : Stats)).2.2.2.2.2.2.2.2.2 [("u", [("commits", 5)])]⟩

/-- Counterexample to C9: a user with no measurable activity at all (total 0,
kept in the output because the R threshold is configured as 0) still receives
the commit clause "commits: 0 → ..." in its justification; the commit clause
is never replaced by the "no measurable contributions" clause, that fallback
being unreachable since the commit clause is always appended first. -/
theorem C9_counterexample :
    (analyze_report [("u", [])] rZeroConfig).map Row.justification =
      ["commits: 0 → 0 pts (2pt/commit). total=0 → grade=R."] := by decide

/-- C9 (amended): every scored record's justification is exactly the
re-rendering of its stored fields in the fixed clause order — commits first
and always present (even for a user with no measurable activity), then bonus,
images, lines changed, issues created, issues resolved, PRs opened, PRs
approved and comments, each emitted exactly when non-zero, terminated by the
total and the grade; the "no measurable contributions" substitution never
occurs. -/
theorem C9_justification (j : List (String × Stats)) (c : Config) (r : Row)
    (hr : r ∈ analyze_report j c) :
    r.justification = renderJustification c r := by
  obtain ⟨p, hp, herr, rfl⟩ := mem_rowsOf.mp (mem_analyze.mp hr).1
  rfl

/-- Witness for C9: the justification equation at a concrete run (one user,
19 commits, default configuration). -/
theorem C9_justification_witness :
    (score_user emptyConfig "u" [("commits", 19)]).justification =
      renderJustification emptyConfig (score_user emptyConfig "u" [("commits", 19)]) :=
  C9_justification [("u", [("commits", 19)])] emptyConfig
    (score_user emptyConfig "u" [("commits", 19)]) (by decide)

/-- C10: per-user noninterference — for two input mappings with unique
usernames that both assign the same error-free record to user u, and the same
configuration, the rows carrying username u in the two outputs are identical:
in each run u contributes exactly the row scored from its own record when that
row passes the drop rule, and no row otherwise, so other entries can influence
only the position of u's row in the ordered output, never its scored values or
its presence. -/
theorem C10_noninterference (j1 j2 : List (String × Stats)) (c : Config)
    (u : String) (stats : Stats)
    (h1 : (u, stats) ∈ j1) (h2 : (u, stats) ∈ j2)
    (hn1 : (j1.map Prod.fst).Nodup) (hn2 : (j2.map Prod.fst).Nodup)
    (herr : hasErrorKey stats = false) :
    (analyze_report j1 c).filter (fun r => r.username == u) =
      (analyze_report j2 c).filter (fun r => r.username == u) ∧
    (analyze_report j1 c).filter (fun r => r.username == u) =
      (if keepRow (score_user c u stats) then [score_user c u stats] else []) := by
  have key : ∀ (j : List (String × Stats)), (u, stats) ∈ j → (j.map Prod.fst).Nodup →
      (analyze_report j c).filter (fun r => r.username == u) =
        (if keepRow (score_user c u stats) then [score_user c u stats] else []) := by
    intro j hmem hnd
    have hperm : List.Perm ((analyze_report j c).filter (fun r => r.username == u))
        (((rowsOf j c).filter keepRow).filter (fun r => r.username == u)) :=
      List.Perm.filter _ (analyze_perm j c)
    have hswap : ((rowsOf j c).filter keepRow).filter (fun r => r.username == u)
        = ((rowsOf j c).filter (fun r => r.username == u)).filter keepRow := by
      rw [List.filter_filter, List.filter_filter]
      exact List.filter_congr (fun x _ => Bool.and_comm (x.username == u) (keepRow x))
    rw [hswap, rowsOf_filter_username hnd hmem herr] at hperm
    rcases hk : keepRow (score_user c u stats) with _ | _
    · simp only [Bool.false_eq_true, if_false]
      rw [List.filter_cons_of_neg (by simp [hk]), List.filter_nil] at hperm
      exact List.perm_nil.mp hperm
    · simp only [if_true]
      rw [List.filter_cons_of_pos hk, List.filter_nil] at hperm
      exact List.perm_singleton.mp hperm
  exact ⟨(key j1 h1 hn1).trans (key j2 h2 hn2).symm, key j1 h1 hn1⟩

/-- Witness for C10: the same user record scored identically inside two
different input mappings (different companions, different positions). -/
theorem C10_noninterference_witness :
    (analyze_report [("u", [("commits", 2)]), ("v", [("commits", 30)])] emptyConfig).filter
        (fun r => r.username == "u") =
      (analyze_report [("w", [("error", 1)]), ("u", [("commits", 2)])] emptyConfig).filter
        (fun r => r.username == "u") :=
  (C10_noninterference [("u", [("commits", 2)]), ("v", [("commits", 30)])]
    [("w", [("error", 1)]), ("u", [("commits", 2)])] emptyConfig "u" [("commits", 2)]
    (by decide) (by decide) (by decide) (by decide) (by decide)).1

end GithubReports
